import Mathlib

/-!
Shallow embedding of the sentry-github plugin (src/sentry_github/plugin.py).

The plugin bridges a Sentry project to the GitHub issue API.  Its external
collaborators are modelled as explicit parameters:
  - option storage: the stored values of the repo, endpoint and github_url
    options arrive as Option String arguments (none when unset);
  - credential lookup: get_auth_for_user arrives as an Option Auth argument;
  - the HTTP transport (safe_urlopen / safe_urlread): the outcome of the
    single outbound exchange arrives as a NetResult argument;
  - json.loads: arrives as a function from the body to either a decoded
    value or the ValueError message.
Python exceptions are modelled with the Except monad; each operation also
reports the list of outbound HTTP requests it issued.
-/

/-- JSON values as produced by json.loads.  An object is an association
list of fields with distinct keys, as json.loads returns. -/
inductive Json where
  | null : Json
  | bool (b : Bool) : Json
  | num (n : Int) : Json
  | str (s : String) : Json
  | arr (elems : List Json) : Json
  | obj (fields : List (String × Json)) : Json

/-- The Python exceptions the plugin code can raise: forms.ValidationError
(whose message object may be any value, e.g. the decoded message field),
KeyError from a dict subscript, and TypeError from subscripting or
iterating a value of the wrong shape. -/
inductive PyError where
  | validationError (msg : Json) : PyError
  | keyError (key : String) : PyError
  | typeError (msg : String) : PyError

/-- The ValidationError raised by make_api_request when the user has no
linked GitHub credential. -/
def notAuthenticatedError : PyError :=
  .validationError (.str "You have not yet associated GitHub with your account.")

/-- The ValidationError raised by create_issue on a transport failure or a
JSON decode failure, wrapping the underlying exception message. -/
def communicationError (msg : String) : PyError :=
  .validationError (.str ("Error communicating with GitHub: " ++ msg))

/-- The linked credential: the plugin only reads tokens access_token. -/
structure Auth where
  access_token : String

/-- The outbound HTTP request that make_api_request hands to safe_urlopen. -/
structure ApiRequest where
  url : String
  authorizationHeader : String
  jsonData : Option Json

/-- Python str conversion of a possibly-missing option value, as used by
percent-s formatting: None renders as the string None. -/
def pyStr : Option String → String
  | some s => s
  | none => "None"

/-- The Python idiom value or default: the default is used when the stored
option is missing or is the empty string (both are falsy). -/
def pyOr : Option String → String → String
  | none, d => d
  | some s, d => if s = "" then d else s

/-- The URL expression of make_api_request:
percent-formatting of endpoint, repo and the api segment, where endpoint
is get_option endpoint or the GitHub API default. -/
def build_request_url (endpointOpt repoOpt : Option String) (github_api : String) : String :=
  pyOr endpointOpt "https://api.github.com" ++ "/repos/" ++ pyStr repoOpt ++ "/" ++ github_api

/-- make_api_request: raises ValidationError when no credential is linked,
otherwise builds the request URL and the token authorization header and
performs the outbound call (returned here as the request description). -/
def make_api_request (auth : Option Auth) (endpointOpt repoOpt : Option String)
    (github_api : String) (json_data : Option Json) : Except PyError ApiRequest :=
  match auth with
  | none => .error notAuthenticatedError
  | some a =>
      .ok ⟨build_request_url endpointOpt repoOpt github_api,
           "token " ++ a.access_token, json_data⟩

/-- Python dict subscript on a decoded JSON value: a missing key in an
object raises KeyError, subscripting a non-object by a string raises
TypeError. -/
def Json.getKey : Json → String → Except PyError Json
  | .obj fields, k =>
      match fields.lookup k with
      | some v => .ok v
      | none => .error (.keyError k)
  | _, k => .error (.typeError ("value is not subscriptable by key " ++ k))

/-- Python iteration over a decoded JSON value: an array yields its
elements, a dict yields its keys, a string yields its one-character
substrings, anything else raises TypeError. -/
def Json.pyIterate : Json → Except PyError (List Json)
  | .arr elems => .ok elems
  | .obj fields => .ok (fields.map fun kv => .str kv.1)
  | .str s => .ok (s.data.map fun c => .str (String.singleton c))
  | _ => .error (.typeError "value is not iterable")

/-- Outcome of the single outbound HTTP exchange (safe_urlopen followed by
safe_urlread): either a requests.RequestException with its message, or a
status code together with the body that was read. -/
inductive NetResult where
  | raises (msg : String) : NetResult
  | success (status : Nat) (body : String) : NetResult

/-- Result of one plugin operation: the returned value or the Python
exception, together with the outbound HTTP requests that were issued. -/
structure CallOutcome (α : Type) where
  result : Except PyError α
  httpRequests : List ApiRequest

/-- The fields of the new-issue form that create_issue reads; assignee is
fetched with dict get and so may be absent. -/
structure FormData where
  title : String
  description : String
  assignee : Option String

/-- The JSON payload that create_issue posts: title, body and assignee,
the latter null when absent. -/
def issuePayload (fd : FormData) : Json :=
  .obj [("title", .str fd.title), ("body", .str fd.description),
        ("assignee", match fd.assignee with | some s => .str s | none => .null)]

/-- create_issue: posts the payload to the issues endpoint.  The try block
catches only requests.RequestException, so the ValidationError from a
missing credential propagates; transport and decode failures become
communication ValidationErrors; an error status raises ValidationError
with the message field of the decoded body (KeyError when absent); success
returns the number field of the decoded body. -/
def create_issue (auth : Option Auth) (endpointOpt repoOpt : Option String)
    (fd : FormData) (net : NetResult) (jsonLoads : String → Except String Json) :
    CallOutcome Json :=
  match make_api_request auth endpointOpt repoOpt "issues" (some (issuePayload fd)) with
  | .error e => ⟨.error e, []⟩
  | .ok req =>
      match net with
      | .raises msg => ⟨.error (communicationError msg), [req]⟩
      | .success status body =>
          match jsonLoads body with
          | .error msg => ⟨.error (communicationError msg), [req]⟩
          | .ok json_resp =>
              if status > 399 then
                match json_resp.getKey "message" with
                | .error e => ⟨.error e, [req]⟩
                | .ok m => ⟨.error (.validationError m), [req]⟩
              else
                match json_resp.getKey "number" with
                | .error e => ⟨.error e, [req]⟩
                | .ok n => ⟨.ok n, [req]⟩

/-- The generator expression of get_allowed_assignees: one login-login
pair per element, evaluated left to right, raising on the first element
whose login subscript fails. -/
def collectAssignees : List Json → Except PyError (List (Json × Json))
  | [] => .ok []
  | u :: rest =>
      match u.getKey "login" with
      | .error e => .error e
      | .ok l =>
          match collectAssignees rest with
          | .error e => .error e
          | .ok users => .ok ((l, l) :: users)

/-- get_allowed_assignees: fetches the assignees endpoint.  The try block
catches only requests.RequestException, so the ValidationError from a
missing credential propagates; a transport failure, a decode failure and
an error status each return the empty tuple; on success the Unassigned
sentinel is prepended to the login pairs (iteration or subscript failures
there are uncaught). -/
def get_allowed_assignees (auth : Option Auth) (endpointOpt repoOpt : Option String)
    (net : NetResult) (jsonLoads : String → Except String Json) :
    CallOutcome (List (Json × Json)) :=
  match make_api_request auth endpointOpt repoOpt "assignees" none with
  | .error e => ⟨.error e, []⟩
  | .ok req =>
      match net with
      | .raises _ => ⟨.ok [], [req]⟩
      | .success status body =>
          match jsonLoads body with
          | .error _ => ⟨.ok [], [req]⟩
          | .ok json_resp =>
              if status > 399 then ⟨.ok [], [req]⟩
              else
                match json_resp.pyIterate with
                | .error e => ⟨.error e, [req]⟩
                | .ok elems =>
                    match collectAssignees elems with
                    | .error e => ⟨.error e, [req]⟩
                    | .ok users =>
                        ⟨.ok ((Json.str "", Json.str "Unassigned") :: users), [req]⟩

/-- get_issue_label: percent-formatting of the issue id. -/
def get_issue_label (issue_id : Int) : String :=
  "GH-" ++ toString issue_id

/-- get_issue_url: percent-formatting of github_url (with its default),
the repo option and the issue id. -/
def get_issue_url (repoOpt githubUrlOpt : Option String) (issue_id : Int) : String :=
  pyOr githubUrlOpt "https://github.com" ++ "/" ++ pyStr repoOpt ++ "/issues/" ++
    toString issue_id

/-- clean_endpoint of the options form: Python rstrip of trailing slash
characters. -/
def rstripSlash (l : List Char) : List Char :=
  (l.reverse.dropWhile fun c => c == '/').reverse

/-- clean_endpoint of GitHubOptionsForm: strips trailing slashes from the
endpoint value at input time. -/
def clean_endpoint (s : String) : String :=
  ⟨rstripSlash s.data⟩

/-- clean_github_url of GitHubOptionsForm: strips trailing slashes from
the github_url value at input time. -/
def clean_github_url (s : String) : String :=
  ⟨rstripSlash s.data⟩

/-- Modelled from the spec words of claim C7, for comparison with the
source definition: the request URL with endpoint equal to the stored
option whenever it is set (even when empty) and the default otherwise. -/
def spec_request_url (endpointOpt repoOpt : Option String) (github_api : String) : String :=
  endpointOpt.getD "https://api.github.com" ++ "/repos/" ++ pyStr repoOpt ++ "/" ++ github_api

/-- Modelled from the spec words of claim C9, for comparison with the
source definition: the issue URL with github_url equal to the stored
option whenever it is set (even when empty) and the default otherwise. -/
def spec_issue_url (repoOpt githubUrlOpt : Option String) (issue_id : Int) : String :=
  githubUrlOpt.getD "https://github.com" ++ "/" ++ pyStr repoOpt ++ "/issues/" ++
    toString issue_id

/-- Whether a character sequence starts with a slash. -/
def headIsSlash : List Char → Bool
  | [] => false
  | c :: _ => c == '/'

/-- Whether a character sequence ends with a slash. -/
def lastIsSlash (l : List Char) : Bool :=
  headIsSlash l.reverse

/-- Whether a character sequence contains two adjacent slashes. -/
def hasDoubleSlash : List Char → Bool
  | [] => false
  | c :: rest => (c == '/' && headIsSlash rest) || hasDoubleSlash rest

/-- C1: with a linked credential, a completed exchange whose body decodes
to a value carrying a number field, and a status of at most 399,
create_issue returns that number field. -/
theorem claim_C1_create_issue_success (a : Auth) (endpointOpt repoOpt : Option String)
    (fd : FormData) (status : Nat) (body : String)
    (jsonLoads : String → Except String Json) (resp n : Json)
    (hparse : jsonLoads body = .ok resp) (hnum : resp.getKey "number" = .ok n)
    (hst : status ≤ 399) :
    (create_issue (some a) endpointOpt repoOpt fd (.success status body) jsonLoads).result
      = .ok n := by
  simp only [create_issue, make_api_request, hparse]
  rw [if_neg (by omega), hnum]

/-- C1 witness: status 201 with a body decoding to an object whose number
field is 42 returns 42. -/
theorem claim_C1_create_issue_success_witness :
    (create_issue (some ⟨"tok"⟩) none (some "getsentry/sentry")
      ⟨"title", "descr", none⟩ (.success 201 "body")
      (fun _ => .ok (.obj [("number", .num 42)]))).result = .ok (.num 42) :=
  claim_C1_create_issue_success ⟨"tok"⟩ none (some "getsentry/sentry")
    ⟨"title", "descr", none⟩ 201 "body" (fun _ => .ok (.obj [("number", .num 42)]))
    (.obj [("number", .num 42)]) (.num 42) rfl rfl (by decide)

/-- C2: with no linked credential, create_issue fails with the
NotAuthenticated ValidationError whatever the configuration, form data,
transport outcome or decoder, and issues no outbound HTTP request. -/
theorem claim_C2_create_issue_not_authenticated (endpointOpt repoOpt : Option String)
    (fd : FormData) (net : NetResult) (jsonLoads : String → Except String Json) :
    create_issue none endpointOpt repoOpt fd net jsonLoads
      = ⟨.error notAuthenticatedError, []⟩ :=
  rfl

/-- C3: with a linked credential, a completed exchange whose body decodes
to a value carrying a message field, and a status above 399, create_issue
fails with a ValidationError carrying exactly that message field. -/
theorem claim_C3_create_issue_remote_rejected (a : Auth) (endpointOpt repoOpt : Option String)
    (fd : FormData) (status : Nat) (body : String)
    (jsonLoads : String → Except String Json) (resp m : Json)
    (hparse : jsonLoads body = .ok resp) (hmsg : resp.getKey "message" = .ok m)
    (hst : status > 399) :
    (create_issue (some a) endpointOpt repoOpt fd (.success status body) jsonLoads).result
      = .error (.validationError m) := by
  simp only [create_issue, make_api_request, hparse]
  rw [if_pos hst, hmsg]

/-- C3 witness: status 422 with a body decoding to an object whose message
field is Validation Failed fails with exactly that message. -/
theorem claim_C3_create_issue_remote_rejected_witness :
    (create_issue (some ⟨"tok"⟩) none (some "getsentry/sentry")
      ⟨"title", "descr", none⟩ (.success 422 "body")
      (fun _ => .ok (.obj [("message", .str "Validation Failed")]))).result
      = .error (.validationError (.str "Validation Failed")) :=
  claim_C3_create_issue_remote_rejected ⟨"tok"⟩ none (some "getsentry/sentry")
    ⟨"title", "descr", none⟩ 422 "body"
    (fun _ => .ok (.obj [("message", .str "Validation Failed")]))
    (.obj [("message", .str "Validation Failed")]) (.str "Validation Failed")
    rfl rfl (by decide)

/-- C4: with a linked credential, a transport failure makes create_issue
fail with the communication ValidationError carrying the underlying
message, and a completed exchange whose body fails to decode makes it
fail with the communication ValidationError carrying the decode message;
in both cases the result is an error, so no issue number is returned. -/
theorem claim_C4_create_issue_communication_error (a : Auth)
    (endpointOpt repoOpt : Option String) (fd : FormData) (tmsg : String)
    (status : Nat) (body : String) (jsonLoads : String → Except String Json)
    (pmsg : String) (hparse : jsonLoads body = .error pmsg) :
    (create_issue (some a) endpointOpt repoOpt fd (.raises tmsg) jsonLoads).result
      = .error (communicationError tmsg)
    ∧ (create_issue (some a) endpointOpt repoOpt fd (.success status body) jsonLoads).result
      = .error (communicationError pmsg) := by
  constructor
  · rfl
  · simp only [create_issue, make_api_request, hparse]

/-- C4 witness: a connection-reset transport failure and a decoder failure
each produce the corresponding communication error at concrete inputs. -/
theorem claim_C4_create_issue_communication_error_witness :
    (create_issue (some ⟨"tok"⟩) none (some "getsentry/sentry")
      ⟨"title", "descr", none⟩ (.raises "Connection reset by peer")
      (fun _ => .error "No JSON object could be decoded")).result
      = .error (communicationError "Connection reset by peer")
    ∧ (create_issue (some ⟨"tok"⟩) none (some "getsentry/sentry")
      ⟨"title", "descr", none⟩ (.success 200 "not json")
      (fun _ => .error "No JSON object could be decoded")).result
      = .error (communicationError "No JSON object could be decoded") :=
  claim_C4_create_issue_communication_error ⟨"tok"⟩ none (some "getsentry/sentry")
    ⟨"title", "descr", none⟩ "Connection reset by peer" 200 "not json"
    (fun _ => .error "No JSON object could be decoded")
    "No JSON object could be decoded" rfl

/-- C10: with a linked credential, a completed exchange whose body decodes
to an object without a message field, and a status above 399, create_issue
raises KeyError for the message key, escaping the ValidationError
taxonomy. -/
theorem claim_C10_create_issue_key_error (a : Auth) (endpointOpt repoOpt : Option String)
    (fd : FormData) (status : Nat) (body : String)
    (jsonLoads : String → Except String Json) (fields : List (String × Json))
    (hparse : jsonLoads body = .ok (.obj fields))
    (hmsg : fields.lookup "message" = none) (hst : status > 399) :
    (create_issue (some a) endpointOpt repoOpt fd (.success status body) jsonLoads).result
      = .error (.keyError "message") := by
  simp only [create_issue, make_api_request, hparse]
  rw [if_pos hst]
  simp only [Json.getKey, hmsg]

/-- C10 witness: status 422 with a body decoding to an object holding only
a documentation_url field raises KeyError for message. -/
theorem claim_C10_create_issue_key_error_witness :
    (create_issue (some ⟨"tok"⟩) none (some "getsentry/sentry")
      ⟨"title", "descr", none⟩ (.success 422 "body")
      (fun _ => .ok (.obj [("documentation_url", .str "https://developer.github.com")]))).result
      = .error (.keyError "message") :=
  claim_C10_create_issue_key_error ⟨"tok"⟩ none (some "getsentry/sentry")
    ⟨"title", "descr", none⟩ 422 "body"
    (fun _ => .ok (.obj [("documentation_url", .str "https://developer.github.com")]))
    [("documentation_url", .str "https://developer.github.com")] rfl rfl (by decide)

/-- C5 counterexample: two failure modes of get_allowed_assignees are not
absorbed into the empty sequence.  With no linked credential the
NotAuthenticated ValidationError propagates, since the try block catches
only requests.RequestException; and with a success status whose body
decodes to an array of objects lacking a login field, the unguarded
subscript raises KeyError. -/
theorem claim_C5_counterexample :
    (get_allowed_assignees none (some "https://api.github.com") (some "getsentry/sentry")
      (.success 200 "[]") (fun _ => .ok (.arr []))).result
      = .error notAuthenticatedError
    ∧ (get_allowed_assignees none (some "https://api.github.com") (some "getsentry/sentry")
      (.success 200 "[]") (fun _ => .ok (.arr []))).result
      ≠ .ok []
    ∧ (get_allowed_assignees (some ⟨"tok"⟩) (some "https://api.github.com")
      (some "getsentry/sentry") (.success 200 "body")
      (fun _ => .ok (.arr [.obj [("id", .num 1)]]))).result
      = .error (.keyError "login")
    ∧ (get_allowed_assignees (some ⟨"tok"⟩) (some "https://api.github.com")
      (some "getsentry/sentry") (.success 200 "body")
      (fun _ => .ok (.arr [.obj [("id", .num 1)]]))).result
      ≠ .ok [] := by
  refine ⟨rfl, ?_, rfl, ?_⟩ <;> intro h <;> exact nomatch h

/-- C5 (amended): with a linked credential, a transport failure, a body
that fails to decode, and a status above 399 are each absorbed into the
empty sequence without the Unassigned sentinel; but a missing credential
instead surfaces the NotAuthenticated ValidationError, and a decoded body
of unexpected structure under a success status surfaces an uncaught
lookup or type error, whether iteration itself fails or a login subscript
fails. -/
theorem claim_C5_assignee_errors_absorbed (a : Auth)
    (endpointOpt repoOpt : Option String) (tmsg : String)
    (loadAny : String → Except String Json) (netAny : NetResult)
    (status₁ : Nat) (body₁ : String) (load₁ : String → Except String Json) (pmsg : String)
    (status₂ : Nat) (body₂ : String) (load₂ : String → Except String Json) (resp₂ : Json)
    (status₃ : Nat) (body₃ : String) (load₃ : String → Except String Json) (resp₃ : Json)
    (err₃ : PyError)
    (status₄ : Nat) (body₄ : String) (load₄ : String → Except String Json) (resp₄ : Json)
    (elems₄ : List Json) (err₄ : PyError)
    (h₁ : load₁ body₁ = .error pmsg)
    (h₂ : load₂ body₂ = .ok resp₂) (hs₂ : status₂ > 399)
    (h₃ : load₃ body₃ = .ok resp₃) (hi₃ : resp₃.pyIterate = .error err₃)
    (hs₃ : status₃ ≤ 399)
    (h₄ : load₄ body₄ = .ok resp₄) (hi₄ : resp₄.pyIterate = .ok elems₄)
    (hc₄ : collectAssignees elems₄ = .error err₄) (hs₄ : status₄ ≤ 399) :
    (get_allowed_assignees (some a) endpointOpt repoOpt (.raises tmsg) loadAny).result
      = .ok []
    ∧ (get_allowed_assignees (some a) endpointOpt repoOpt
        (.success status₁ body₁) load₁).result = .ok []
    ∧ (get_allowed_assignees (some a) endpointOpt repoOpt
        (.success status₂ body₂) load₂).result = .ok []
    ∧ (get_allowed_assignees none endpointOpt repoOpt netAny loadAny).result
      = .error notAuthenticatedError
    ∧ (get_allowed_assignees (some a) endpointOpt repoOpt
        (.success status₃ body₃) load₃).result = .error err₃
    ∧ (get_allowed_assignees (some a) endpointOpt repoOpt
        (.success status₄ body₄) load₄).result = .error err₄ := by
  refine ⟨rfl, ?_, ?_, rfl, ?_, ?_⟩
  · simp only [get_allowed_assignees, make_api_request, h₁]
  · simp only [get_allowed_assignees, make_api_request, h₂]
    rw [if_pos hs₂]
  · simp only [get_allowed_assignees, make_api_request, h₃]
    rw [if_neg (by omega)]
    simp only [hi₃]
  · simp only [get_allowed_assignees, make_api_request, h₄]
    rw [if_neg (by omega)]
    simp only [hi₄, hc₄]

/-- C5 amended witness: a timeout, an undecodable body, and a 404 status
each yield the empty sequence; a missing credential, a non-iterable
decoded body at status 200, and an array element without a login field at
status 200 each surface an error. -/
theorem claim_C5_assignee_errors_absorbed_witness :
    (get_allowed_assignees (some ⟨"tok"⟩) none (some "getsentry/sentry")
      (.raises "Connection timed out") (fun _ => .ok .null)).result = .ok []
    ∧ (get_allowed_assignees (some ⟨"tok"⟩) none (some "getsentry/sentry")
        (.success 200 "not json")
        (fun _ => .error "No JSON object could be decoded")).result = .ok []
    ∧ (get_allowed_assignees (some ⟨"tok"⟩) none (some "getsentry/sentry")
        (.success 404 "err") (fun _ => .ok (.obj [("message", .str "Not Found")]))).result
      = .ok []
    ∧ (get_allowed_assignees none none (some "getsentry/sentry")
        (.success 200 "ok") (fun _ => .ok .null)).result = .error notAuthenticatedError
    ∧ (get_allowed_assignees (some ⟨"tok"⟩) none (some "getsentry/sentry")
        (.success 200 "3") (fun _ => .ok (.num 3))).result
      = .error (.typeError "value is not iterable")
    ∧ (get_allowed_assignees (some ⟨"tok"⟩) none (some "getsentry/sentry")
        (.success 200 "body") (fun _ => .ok (.arr [.obj [("id", .num 1)]]))).result
      = .error (.keyError "login") :=
  claim_C5_assignee_errors_absorbed ⟨"tok"⟩ none (some "getsentry/sentry")
    "Connection timed out" (fun _ => .ok .null) (.success 200 "ok")
    200 "not json" (fun _ => .error "No JSON object could be decoded")
    "No JSON object could be decoded"
    404 "err" (fun _ => .ok (.obj [("message", .str "Not Found")]))
    (.obj [("message", .str "Not Found")])
    200 "3" (fun _ => .ok (.num 3)) (.num 3) (.typeError "value is not iterable")
    200 "body" (fun _ => .ok (.arr [.obj [("id", .num 1)]])) (.arr [.obj [("id", .num 1)]])
    [.obj [("id", .num 1)]] (.keyError "login")
    rfl rfl (by decide) rfl rfl (by decide) rfl rfl rfl (by decide)

/-- collectAssignees on a list of users whose login subscripts succeed
pointwise yields the corresponding login pairs in order. -/
theorem collectAssignees_forall₂ (users logins : List Json)
    (h : List.Forall₂ (fun u l => u.getKey "login" = .ok l) users logins) :
    collectAssignees users = .ok (logins.map fun l => (l, l)) := by
  induction h with
  | nil => rfl
  | cons hu _ ih => simp only [collectAssignees, hu, ih, List.map_cons]

/-- C8: with a linked credential, a status of at most 399 and a body that
decodes to an array of user objects, each carrying at least a login field
whose value is read by the login subscript, the returned sequence is the
Unassigned sentinel followed by one login-login pair per user, in the
order returned. -/
theorem claim_C8_assignees_success (a : Auth) (endpointOpt repoOpt : Option String)
    (status : Nat) (body : String) (jsonLoads : String → Except String Json)
    (users logins : List Json)
    (hparse : jsonLoads body = .ok (.arr users))
    (hlogin : List.Forall₂ (fun u l => u.getKey "login" = .ok l) users logins)
    (hst : status ≤ 399) :
    (get_allowed_assignees (some a) endpointOpt repoOpt
      (.success status body) jsonLoads).result
      = .ok ((Json.str "", Json.str "Unassigned") :: logins.map fun l => (l, l)) := by
  simp only [get_allowed_assignees, make_api_request, hparse]
  rw [if_neg (by omega)]
  simp only [Json.pyIterate, collectAssignees_forall₂ users logins hlogin]

/-- C8 witness: users alice and bob at status 200, each object carrying
further fields beside login, yield the sentinel followed by the alice and
bob pairs in order. -/
theorem claim_C8_assignees_success_witness :
    (get_allowed_assignees (some ⟨"tok"⟩) none (some "getsentry/sentry")
      (.success 200 "body")
      (fun _ => .ok (.arr [.obj [("login", .str "alice"), ("id", .num 1)],
                           .obj [("id", .num 2), ("login", .str "bob")]]))).result
      = .ok [(Json.str "", Json.str "Unassigned"), (Json.str "alice", Json.str "alice"),
             (Json.str "bob", Json.str "bob")] :=
  claim_C8_assignees_success ⟨"tok"⟩ none (some "getsentry/sentry") 200 "body"
    (fun _ => .ok (.arr [.obj [("login", .str "alice"), ("id", .num 1)],
                         .obj [("id", .num 2), ("login", .str "bob")]]))
    [.obj [("login", .str "alice"), ("id", .num 1)],
     .obj [("id", .num 2), ("login", .str "bob")]]
    [.str "alice", .str "bob"] rfl
    (List.Forall₂.cons rfl (List.Forall₂.cons rfl List.Forall₂.nil)) (by decide)

/-- The last character of a sequence of at least two characters is the
last character of its tail. -/
theorem lastIsSlash_cons_cons (c d : Char) (ds : List Char) :
    lastIsSlash (c :: d :: ds) = lastIsSlash (d :: ds) := by
  simp only [lastIsSlash, List.reverse_cons]
  cases h : ds.reverse with
  | nil => simp [h, headIsSlash]
  | cons e es => simp [h, headIsSlash]

/-- Appending on the left of a nonempty sequence keeps its last
character. -/
theorem lastIsSlash_append (xs ys : List Char) (h : ys ≠ []) :
    lastIsSlash (xs ++ ys) = lastIsSlash ys := by
  cases ys with
  | nil => exact absurd rfl h
  | cons d ds =>
      simp only [lastIsSlash, List.reverse_append, List.reverse_cons]
      cases hd : ds.reverse with
      | nil => simp [hd, headIsSlash]
      | cons e es => simp [hd, headIsSlash]

/-- A double slash in an appended sequence is a double slash in one part
or a slash on each side of the seam. -/
theorem hasDoubleSlash_append (xs ys : List Char) :
    hasDoubleSlash (xs ++ ys) = true ↔
      (hasDoubleSlash xs = true ∨ (lastIsSlash xs = true ∧ headIsSlash ys = true)
        ∨ hasDoubleSlash ys = true) := by
  induction xs with
  | nil => simp [hasDoubleSlash, lastIsSlash, headIsSlash]
  | cons c xs ih =>
      cases xs with
      | nil =>
          cases ys with
          | nil => simp [hasDoubleSlash, lastIsSlash, headIsSlash]
          | cons d ds =>
              simp only [List.cons_append, List.nil_append, hasDoubleSlash, headIsSlash,
                lastIsSlash, List.reverse_cons, List.reverse_nil, Bool.or_eq_true,
                Bool.and_eq_true]
              tauto
      | cons d ds =>
          simp only [List.cons_append] at ih ⊢
          simp only [hasDoubleSlash, headIsSlash, lastIsSlash_cons_cons, Bool.or_eq_true,
            Bool.and_eq_true] at ih ⊢
          rw [ih]
          tauto

/-- Dropping leading slashes leaves a sequence that does not start with a
slash. -/
theorem headIsSlash_dropWhile (l : List Char) :
    headIsSlash (l.dropWhile fun c => c == '/') = false := by
  induction l with
  | nil => rfl
  | cons c cs ih =>
      rw [List.dropWhile_cons]
      cases h : c == '/' with
      | false => simp [h, headIsSlash]
      | true => simpa [h] using ih

/-- Python rstrip of slashes leaves no trailing slash. -/
theorem lastIsSlash_rstripSlash (l : List Char) :
    lastIsSlash (rstripSlash l) = false := by
  simp only [rstripSlash, lastIsSlash, List.reverse_reverse]
  exact headIsSlash_dropWhile _

/-- The seams of the request URL concatenation introduce no new double
slash when the endpoint has no trailing slash, the repo is nonempty with
no leading or trailing slash, and the api segment has no leading slash. -/
theorem hasDoubleSlash_url (E R A : List Char)
    (hel : lastIsSlash E = false) (hr : R ≠ [])
    (hrh : headIsSlash R = false) (hrl : lastIsSlash R = false)
    (hah : headIsSlash A = false) :
    hasDoubleSlash ((((E ++ "/repos/".data) ++ R) ++ "/".data) ++ A) = true ↔
      (hasDoubleSlash E = true ∨ hasDoubleSlash R = true ∨ hasDoubleSlash A = true) := by
  have hL1 : lastIsSlash ((E ++ "/repos/".data) ++ R) = false := by
    rw [lastIsSlash_append _ _ hr]; exact hrl
  have hS : hasDoubleSlash ("/repos/".data) = false := by decide
  have hSh : headIsSlash ("/repos/".data) = true := by decide
  have hsl : headIsSlash ("/".data) = true := by decide
  have hslDS : hasDoubleSlash ("/".data) = false := by decide
  rw [hasDoubleSlash_append, hasDoubleSlash_append, hasDoubleSlash_append,
    hasDoubleSlash_append]
  simp only [hel, hrh, hah, hL1, hS, hSh, hsl, hslDS, Bool.false_eq_true, false_and,
    and_true, and_false, false_or, or_false]
  tauto

/-- C6 counterexample: make_api_request strips nothing; with stored
endpoint value e and stored repo value o r slash (a trailing slash the
options form never strips, having no clean method for repo), the built
URL keeps the trailing slash and contains a double slash even though no
input piece contains one. -/
theorem claim_C6_counterexample :
    build_request_url (some "e") (some "o/r/") "issues" = "e/repos/o/r//issues"
    ∧ hasDoubleSlash (build_request_url (some "e") (some "o/r/") "issues").data = true
    ∧ hasDoubleSlash "e".data = false
    ∧ hasDoubleSlash "o/r/".data = false
    ∧ hasDoubleSlash "issues".data = false := by
  refine ⟨by decide, by decide, by decide, by decide, by decide⟩

/-- C6 (amended): build_request_url itself strips nothing; trailing
slashes on the endpoint and github_url values are stripped at input time
by the options form (clean_endpoint and clean_github_url never leave a
trailing slash), and the concatenation introduces no new double slash
provided the endpoint is nonempty with no trailing slash and the repo
value — which no form method cleans — is nonempty with no leading or
trailing slash and the api segment has no leading slash. -/
theorem claim_C6_no_double_slash (s t e r a : String)
    (he : e ≠ "") (hel : lastIsSlash e.data = false)
    (hr : r.data ≠ []) (hrh : headIsSlash r.data = false)
    (hrl : lastIsSlash r.data = false) (hah : headIsSlash a.data = false) :
    lastIsSlash (clean_endpoint s).data = false
    ∧ lastIsSlash (clean_github_url t).data = false
    ∧ (hasDoubleSlash (build_request_url (some e) (some r) a).data = true ↔
        (hasDoubleSlash e.data = true ∨ hasDoubleSlash r.data = true
          ∨ hasDoubleSlash a.data = true)) := by
  refine ⟨lastIsSlash_rstripSlash _, lastIsSlash_rstripSlash _, ?_⟩
  have hurl : (build_request_url (some e) (some r) a).data
      = (((e.data ++ "/repos/".data) ++ r.data) ++ "/".data) ++ a.data := by
    simp only [build_request_url, pyOr, pyStr]
    rw [if_neg he]
    rw [String.data_append, String.data_append, String.data_append, String.data_append]
  rw [hurl]
  exact hasDoubleSlash_url _ _ _ hel hr hrh hrl hah

/-- C6 amended witness: form-cleaned endpoint and github_url values have
no trailing slash, and a slash-free endpoint, repo and segment build a
URL with no double slash. -/
theorem claim_C6_no_double_slash_witness :
    lastIsSlash (clean_endpoint "https://api.github.com/").data = false
    ∧ lastIsSlash (clean_github_url "https://github.com/").data = false
    ∧ (hasDoubleSlash (build_request_url (some "gh.example") (some "o-r") "issues").data
        = true ↔
        (hasDoubleSlash "gh.example".data = true ∨ hasDoubleSlash "o-r".data = true
          ∨ hasDoubleSlash "issues".data = true)) :=
  claim_C6_no_double_slash "https://api.github.com/" "https://github.com/"
    "gh.example" "o-r" "issues" (by decide) (by decide) (by decide) (by decide)
    (by decide) (by decide)

/-- C7 counterexample: with the endpoint option stored as the empty
string — a set value — the code builds with the default endpoint, while
the URL prescribed by the claim words starts with the stored empty
endpoint; the two differ. -/
theorem claim_C7_counterexample :
    build_request_url (some "") (some "getsentry/sentry") "issues"
      = "https://api.github.com/repos/getsentry/sentry/issues"
    ∧ spec_request_url (some "") (some "getsentry/sentry") "issues"
      = "/repos/getsentry/sentry/issues"
    ∧ build_request_url (some "") (some "getsentry/sentry") "issues"
      ≠ spec_request_url (some "") (some "getsentry/sentry") "issues" := by
  refine ⟨by decide, by decide, by decide⟩

/-- C7 (amended): the request URL is endpoint slash repos slash repo
slash segment, where endpoint is the stored option when it is set to a
nonempty value and the GitHub API default when it is unset or empty. -/
theorem claim_C7_request_url (endpointOpt repoOpt : Option String) (github_api : String)
    (h : endpointOpt ≠ some "") :
    build_request_url endpointOpt repoOpt github_api
      = spec_request_url endpointOpt repoOpt github_api
    ∧ build_request_url (some "") repoOpt github_api
      = build_request_url none repoOpt github_api := by
  refine ⟨?_, rfl⟩
  cases endpointOpt with
  | none => rfl
  | some s =>
      have hs : s ≠ "" := fun hh => h (by rw [hh])
      simp [build_request_url, spec_request_url, pyOr, hs]

/-- C7 amended witness: a nonempty stored endpoint is used verbatim, and
the empty stored endpoint builds the same URL as an unset endpoint. -/
theorem claim_C7_request_url_witness :
    build_request_url (some "https://ghe.example.com") (some "getsentry/sentry") "assignees"
      = spec_request_url (some "https://ghe.example.com") (some "getsentry/sentry")
          "assignees"
    ∧ build_request_url (some "") (some "getsentry/sentry") "assignees"
      = build_request_url none (some "getsentry/sentry") "assignees" :=
  claim_C7_request_url (some "https://ghe.example.com") (some "getsentry/sentry")
    "assignees" (by decide)

/-- C9 counterexample: with the github_url option stored as the empty
string — a set value — the code builds the issue URL with the default
base, while the URL prescribed by the claim words starts with the stored
empty base; the two differ. -/
theorem claim_C9_counterexample :
    get_issue_url (some "getsentry/sentry") (some "") 42
      = "https://github.com/getsentry/sentry/issues/42"
    ∧ spec_issue_url (some "getsentry/sentry") (some "") 42
      = "/getsentry/sentry/issues/42"
    ∧ get_issue_url (some "getsentry/sentry") (some "") 42
      ≠ spec_issue_url (some "getsentry/sentry") (some "") 42 := by
  refine ⟨by decide, by decide, by decide⟩

/-- C9 (amended): the issue label is GH dash id; the issue URL is
github_url slash repo slash issues slash id, where github_url is the
stored option when it is set to a nonempty value and the GitHub web
default when it is unset or empty; both functions of the embedding are
pure, hence deterministic in their inputs. -/
theorem claim_C9_issue_label_and_url (issue_id : Int) (repoOpt githubUrlOpt : Option String)
    (h : githubUrlOpt ≠ some "") :
    get_issue_label issue_id = "GH-" ++ toString issue_id
    ∧ get_issue_url repoOpt githubUrlOpt issue_id
      = spec_issue_url repoOpt githubUrlOpt issue_id
    ∧ get_issue_url repoOpt (some "") issue_id = get_issue_url repoOpt none issue_id := by
  refine ⟨rfl, ?_, rfl⟩
  cases githubUrlOpt with
  | none => rfl
  | some s =>
      have hs : s ≠ "" := fun hh => h (by rw [hh])
      simp [get_issue_url, spec_issue_url, pyOr, hs]

/-- C9 amended witness: label GH-42, a nonempty stored github_url used
verbatim, and the empty stored github_url behaving as unset. -/
theorem claim_C9_issue_label_and_url_witness :
    get_issue_label 42 = "GH-" ++ toString (42 : Int)
    ∧ get_issue_url (some "getsentry/sentry") (some "https://ghe.example.com") 42
      = spec_issue_url (some "getsentry/sentry") (some "https://ghe.example.com") 42
    ∧ get_issue_url (some "getsentry/sentry") (some "") 42
      = get_issue_url (some "getsentry/sentry") none 42 :=
  claim_C9_issue_label_and_url 42 (some "getsentry/sentry")
    (some "https://ghe.example.com") (by decide)
